import Mathlib

/-!
Verification development for the order & inventory core of a small commerce
back office (Express + Mongoose, "Amman Steels & Electronics" server).

Embedding conventions:
* JS `Number` arithmetic on money is modelled as exact rational arithmetic
  (`ℚ`); quantities in stock routes are integers (`ℤ`) because the routes
  validate them with `isInt({ min: 1 })` before the handler body runs.
* Mongoose document validation (the `min`/`enum`/`required` constraints of
  `src/models/Order.js`) runs on `save()`; a failed validation throws, the
  route's catch-all answers HTTP 500 and nothing is persisted.  This is
  modelled by an explicit validity check at the point of `save()`.
* Each route handler is a pure function from its inputs (and the relevant
  stored documents) to a `Res`ult: the successful value or the HTTP error
  the route answers with.  `persist stored r` is the document that is in the
  store after a request that found `stored` and produced `r` (errors leave
  the store unchanged).
* Fields that no claim touches (timestamps, `createdBy`/`processedBy`,
  `notes`, `paymentMethod`, supplier metadata, `unitPrice`/`totalValue` on
  movements) are omitted from the records.
-/

namespace AmmanSteels

/-! ### Decimal stringification: JS `String(n)` and `padStart(k, "0")`
    (used by `generateOrderNumber` / `generateInvoiceNumber` in
    `src/models/Order.js`). -/

/-- Decimal digits of `n`, most significant first.  `fuel` only bounds the
    recursion (the definition is structural so that proofs can evaluate it);
    it agrees with JS `String(n)` whenever `n < fuel`. -/
def natDigitsAux : Nat → Nat → List Char
  | 0, _ => []
  | fuel + 1, n =>
    if n < 10 then [Nat.digitChar n]
    else natDigitsAux fuel (n / 10) ++ [Nat.digitChar (n % 10)]

/-- JS `String(n)` for a natural number. -/
def natStr (n : Nat) : String :=
  String.mk (natDigitsAux (n + 1) n)

/-- JS `s.padStart(k, "0")`: left-pad with `'0'` up to length `k`
    (no-op when `s` is already at least that long). -/
def padStart (k : Nat) (s : String) : String :=
  String.mk (List.replicate (k - s.length) '0' ++ s.data)

/-- The per-scope per-month tag, e.g. `ORD202501`:
    `` `${scope}${today.getFullYear()}${String(today.getMonth()+1).padStart(2,'0')}` ``. -/
def scopeTag (scope : String) (year month : Nat) : String :=
  scope ++ natStr year ++ padStart 2 (natStr month)

/-- `orderSchema.statics.generateOrderNumber`: count the existing order
    numbers matching `^tag` (`existing` is the list of order numbers in the
    store) and append `String(count + 1).padStart(4, '0')`. -/
def generateOrderNumber (existing : List String) (year month : Nat) : String :=
  let tag := scopeTag "ORD" year month
  tag ++ padStart 4 (natStr ((existing.filter (fun s => s.startsWith tag)).length + 1))

/-- `orderSchema.statics.generateInvoiceNumber`: same with the `INV` scope
    over the stored invoice numbers. -/
def generateInvoiceNumber (existing : List String) (year month : Nat) : String :=
  let tag := scopeTag "INV" year month
  tag ++ padStart 4 (natStr ((existing.filter (fun s => s.startsWith tag)).length + 1))

/-! ### HTTP results -/

/-- The error responses the admin routes produce. -/
inductive HttpError
  | badRequest (msg : String)
  | notFound (msg : String)
  | serverError
deriving DecidableEq

/-- Outcome of a route handler: the successful payload or an error response. -/
inductive Res (α : Type)
  | ok (val : α)
  | err (e : HttpError)
deriving DecidableEq

def Res.map {α β : Type} (f : α → β) : Res α → Res β
  | .ok a => .ok (f a)
  | .err e => .err e

/-! ### Products (`src/models/Product.js`) -/

/-- A catalog entry.  The model has no on-hand quantity: availability is the
    single boolean `inStock` (default true). -/
structure Product where
  id : String
  name : String
  price : ℚ
  unit : String
  inStock : Bool
deriving DecidableEq

/-! ### Orders (`src/models/Order.js`) -/

/-- `paymentStatus` enum.  `partPaid` models the schema value `'partial'`. -/
inductive PaymentStatus
  | pending
  | partPaid
  | paid
deriving DecidableEq

/-- `status` enum of `orderSchema`. -/
inductive OrderStatus
  | draft
  | confirmed
  | processing
  | completed
  | cancelled
deriving DecidableEq

/-- An embedded order line (`orderItemSchema`). -/
structure OrderItem where
  productName : String
  sku : String
  quantity : ℚ
  unit : String
  unitPrice : ℚ
  discount : ℚ
  gstRate : ℚ
  gstAmount : ℚ
  totalAmount : ℚ
deriving DecidableEq

/-- An order document (`orderSchema`); `invoiceNumber` is `none` while unset. -/
structure Order where
  orderNumber : String
  invoiceNumber : Option String
  customerName : String
  items : List OrderItem
  subtotal : ℚ
  totalDiscount : ℚ
  totalGst : ℚ
  grandTotal : ℚ
  paymentStatus : PaymentStatus
  amountPaid : ℚ
  amountDue : ℚ
  status : OrderStatus
deriving DecidableEq

/-- The `orderItemSchema` validators mongoose runs on `save()`:
    `quantity` has `min: [1, 'Quantity must be at least 1']`,
    `unitPrice` has `min: 0`, `discount` has `min: 0`. -/
def OrderItem.validB (it : OrderItem) : Bool :=
  decide (1 ≤ it.quantity) && decide (0 ≤ it.unitPrice) && decide (0 ≤ it.discount)

/-- The `orderSchema` validators mongoose runs on `save()`: every embedded
    item validates, `subtotal`/`totalDiscount`/`totalGst`/`grandTotal`/
    `amountPaid`/`amountDue` all have `min: 0`, and `customer.name` is
    required (fails on a missing/empty string).  Enum paths are enforced by
    the embedding types themselves. -/
def Order.validB (o : Order) : Bool :=
  o.items.all OrderItem.validB &&
    decide (0 ≤ o.subtotal) && decide (0 ≤ o.totalDiscount) &&
    decide (0 ≤ o.totalGst) && decide (0 ≤ o.grandTotal) &&
    decide (0 ≤ o.amountPaid) && decide (0 ≤ o.amountDue) &&
    (o.customerName != "")

/-- JS whitespace test for `String.prototype.trim` (the common cases). -/
def isWhitespaceChar (c : Char) : Bool :=
  c == ' ' || c == '\t' || c == '\n' || c == '\r'

/-- JS `s.trim()` (structural embedding, so proofs can evaluate it). -/
def strTrim (s : String) : String :=
  String.mk (((s.data.dropWhile isWhitespaceChar).reverse.dropWhile isWhitespaceChar).reverse)

/-- `paid >= grandTotal ? 'paid' : paid > 0 ? 'partial' : 'pending'`
    (lines 85 and 100 of `src/routes/adminOrders.js`). -/
def paymentStatusOf (amountPaid grandTotal : ℚ) : PaymentStatus :=
  if grandTotal ≤ amountPaid then .paid
  else if 0 < amountPaid then .partPaid
  else .pending

/-- `Product.findOne({ id: item.productId })`: first catalog entry whose
    `id` equals the requested product id. -/
def findProduct : List Product → String → Option Product
  | [], _ => none
  | p :: rest, pid => if p.id == pid then some p else findProduct rest pid

/-- One iteration of the create-order loop body: the pushed processed item.
    `itemTotal = product.price * item.quantity`, `gst = (itemTotal * 18) / 100`. -/
def priceItem (p : Product) (qty : ℚ) : OrderItem :=
  let itemTotal := p.price * qty
  let gst := itemTotal * 18 / 100
  { productName := p.name
    sku := p.id
    quantity := qty
    unit := p.unit
    unitPrice := p.price
    discount := 0
    gstRate := 18
    gstAmount := gst
    totalAmount := itemTotal + gst }

/-- The create-order loop over `items`: resolves each product in request
    order and fails with 400 `Product not found: …` at the first miss. -/
def processItems (catalog : List Product) : List (String × ℚ) → Res (List OrderItem)
  | [] => .ok []
  | (pid, qty) :: rest =>
    match findProduct catalog pid with
    | none => .err (.badRequest ("Product not found: " ++ pid))
    | some p =>
      match processItems catalog rest with
      | .err e => .err e
      | .ok its => .ok (priceItem p qty :: its)

/-- The document `new Order({ ... })` the create-order route builds from the
    processed items: `subtotal`/`totalGst` are the loop's running sums over
    the processed items, `grandTotal = subtotal + totalGst`,
    `paid = amountPaid || 0`, `amountDue = grandTotal - paid`, payment status
    from the ternary, fulfillment status `'confirmed'`. -/
def builtOrder (orderNumber customerName : String) (pItems : List OrderItem)
    (amountPaidReq : Option ℚ) : Order :=
  let subtotal := (pItems.map (fun it => it.unitPrice * it.quantity)).sum
  let totalGst := (pItems.map (fun it => it.gstAmount)).sum
  let grandTotal := subtotal + totalGst
  let paid := amountPaidReq.getD 0
  { orderNumber := orderNumber
    invoiceNumber := none
    customerName := strTrim customerName
    items := pItems
    subtotal := subtotal
    totalDiscount := 0
    totalGst := totalGst
    grandTotal := grandTotal
    paymentStatus := paymentStatusOf paid grandTotal
    amountPaid := paid
    amountDue := grandTotal - paid
    status := .confirmed }

/-- `POST /api/admin/orders` (create order).  The express-validator gate is
    `customer.name` trim+notEmpty and `items` isArray min 1; then the pricing
    loop, then the document is built and `save()`d — a document that fails
    the schema validators throws and the route answers 500. -/
def createOrder (catalog : List Product) (orderNumber customerName : String)
    (reqItems : List (String × ℚ)) (amountPaidReq : Option ℚ) : Res Order :=
  if strTrim customerName == "" || reqItems.isEmpty then
    .err (.badRequest "validation failed")
  else
    match processItems catalog reqItems with
    | .err e => .err e
    | .ok pItems =>
      let o := builtOrder orderNumber customerName pItems amountPaidReq
      if o.validB then .ok o else .err .serverError

/-- The in-memory document after the `PUT /api/admin/orders/:id` mutations:
    `if (status) order.status = status`, and when `amountPaid` is present
    `order.amountPaid = amountPaid; order.amountDue = order.grandTotal -
    amountPaid; order.paymentStatus = …ternary…`. -/
def updatedOrder (order : Order) (statusReq : Option OrderStatus)
    (amountPaidReq : Option ℚ) : Order :=
  let o1 :=
    match statusReq with
    | some s => { order with status := s }
    | none => order
  match amountPaidReq with
  | some a =>
    { o1 with
      amountPaid := a
      amountDue := o1.grandTotal - a
      paymentStatus := paymentStatusOf a o1.grandTotal }
  | none => o1

/-- `PUT /api/admin/orders/:id` on a stored order: apply the mutations and
    `save()` (schema validation as above; a validation failure answers 500
    and persists nothing). -/
def updateOrder (order : Order) (statusReq : Option OrderStatus)
    (amountPaidReq : Option ℚ) : Res Order :=
  let o2 := updatedOrder order statusReq amountPaidReq
  if o2.validB then .ok o2 else .err .serverError

/-- The stored document after a request that found `stored` and produced
    result `r`: an error response leaves the store unchanged. -/
def persist (stored : Order) : Res Order → Order
  | .ok o => o
  | .err _ => stored

/-- `POST /api/admin/orders/:id/invoice`: 400 `Invoice exists` when
    `order.invoiceNumber` is set; otherwise assign a freshly generated
    invoice number, set status `completed` and `save()`. -/
def issueInvoice (existingInvoiceNumbers : List String) (year month : Nat)
    (order : Order) : Res Order :=
  match order.invoiceNumber with
  | some _ => .err (.badRequest "Invoice exists")
  | none =>
    let o :=
      { order with
        invoiceNumber := some (generateInvoiceNumber existingInvoiceNumbers year month)
        status := OrderStatus.completed }
    if o.validB then .ok o else .err .serverError

/-! ### Stock movements (`src/routes/…stock` routes, `src/unnamed/part_002`) -/

/-- Movement kinds; `ret` models the schema value `'return'`. -/
inductive MovementType
  | stock_in
  | stock_out
  | adjustment
  | ret
  | damage
deriving DecidableEq

/-- A recorded stock movement (the fields the claims are about). -/
structure StockMovement where
  productId : String
  type : MovementType
  quantity : ℤ
  previousStock : ℤ
  newStock : ℤ
deriving DecidableEq

/-- `POST /api/admin/stock/in`.  After `isInt({ min: 1 })` validation:
    `previousStock = product.inStock ? 1 : 0`, `newStock = previousStock +
    quantity`, the movement is stored and the product flagged in stock. -/
def stockIn (product : Product) (quantity : ℤ) : Res (StockMovement × Product) :=
  if quantity < 1 then .err (.badRequest "Quantity must be at least 1")
  else
    let previousStock : ℤ := if product.inStock then 1 else 0
    let newStock := previousStock + quantity
    .ok ({ productId := product.id
           type := .stock_in
           quantity := quantity
           previousStock := previousStock
           newStock := newStock },
         { product with inStock := true })

/-- `POST /api/admin/stock/out`.  After `isInt({ min: 1 })` validation:
    `previousStock = product.inStock ? quantity : 0`,
    `newStock = Math.max(0, previousStock - quantity)`, the movement is
    stored, and the product is flagged out of stock when `newStock <= 0`. -/
def stockOut (product : Product) (quantity : ℤ) : Res (StockMovement × Product) :=
  if quantity < 1 then .err (.badRequest "Quantity must be at least 1")
  else
    let previousStock : ℤ := if product.inStock then quantity else 0
    let newStock := max 0 (previousStock - quantity)
    let p2 := if newStock ≤ 0 then { product with inStock := false } else product
    .ok ({ productId := product.id
           type := .stock_out
           quantity := quantity
           previousStock := previousStock
           newStock := newStock }, p2)

/-- `POST /api/admin/stock/adjustment`.  After validation (`quantity`
    isInt min 1, `type` in `adjustment`/`return`/`damage`):
    `previousStock = product.inStock ? 1 : 0`, `newStock = type === 'return'
    ? previousStock + quantity : Math.max(0, previousStock - quantity)`,
    movement stored, `product.inStock = newStock > 0`. -/
def stockAdjustment (product : Product) (quantity : ℤ) (t : MovementType) :
    Res (StockMovement × Product) :=
  if quantity < 1 then .err (.badRequest "Quantity must be at least 1")
  else if t ≠ .adjustment ∧ t ≠ .ret ∧ t ≠ .damage then
    .err (.badRequest "Invalid adjustment type")
  else
    let previousStock : ℤ := if product.inStock then 1 else 0
    let newStock :=
      if t = .ret then previousStock + quantity else max 0 (previousStock - quantity)
    .ok ({ productId := product.id
           type := t
           quantity := quantity
           previousStock := previousStock
           newStock := newStock },
         { product with inStock := decide (0 < newStock) })

/-- Modelled from the spec: the `StockMovement` model file itself is not
    among the sources (only its callers are).  §3 and §4.3 of the spec make
    the append-only movement sequence "the source of truth for its quantity
    on hand", with the delta rule: `stock_in`/`return` increase on-hand by
    `quantity`, the other kinds decrease it floored at zero.  This folds the
    delta rule over a movement history to obtain that ledger-derived on-hand
    count. -/
def ledgerOnHand (movements : List StockMovement) : ℤ :=
  movements.foldl
    (fun onHand m =>
      match m.type with
      | .stock_in => onHand + m.quantity
      | .ret => onHand + m.quantity
      | _ => max 0 (onHand - m.quantity))
    0

/-- Modelled from the spec: §4.2 asks for `gstAmount` "rounded to the
    smallest currency unit using round-half-up"; the smallest unit of ₹ is
    0.01.  Stated only to compare against what the code computes. -/
def roundHalfUpPaise (x : ℚ) : ℚ :=
  ((⌊x * 100 + 1 / 2⌋ : ℤ) : ℚ) / 100

/-! ### Concrete fixtures used by the scenario conjuncts, witnesses and
    counterexamples -/

/-- A catalog product priced at the spec scenario's ₹65,000. -/
def steelProduct : Product :=
  { id := "STEEL-1", name := "TMT Bar", price := 65000, unit := "ton", inStock := true }

/-- A catalog product priced at the spec scenario's ₹58. -/
def wireProduct : Product :=
  { id := "WIRE-1", name := "Binding Wire", price := 58, unit := "kg", inStock := true }

def scenarioCatalog : List Product := [steelProduct, wireProduct]

/-- A product priced at one paisa (the smallest currency unit), whose 18%
    GST on a single unit is 0.0018 — strictly between 0 and one paisa. -/
def pennyProduct : Product :=
  { id := "PENNY-1", name := "Washer", price := 1 / 100, unit := "pc", inStock := true }

def pennyCatalog : List Product := [pennyProduct]

/-- A plainly priced product for the invalid-quantity scenario. -/
def boltProduct : Product :=
  { id := "BOLT-1", name := "Bolt", price := 5, unit := "pc", inStock := true }

def boltCatalog : List Product := [boltProduct]

/-- A product currently flagged out of stock. -/
def emptyProduct : Product :=
  { id := "EMPTY-1", name := "Angle", price := 7, unit := "pc", inStock := false }

/-- A stored, schema-valid order with `grandTotal = 100`, nothing paid yet,
    no invoice issued. -/
def g100order : Order :=
  { orderNumber := "ORD2025010001"
    invoiceNumber := none
    customerName := "C"
    items := []
    subtotal := 100
    totalDiscount := 0
    totalGst := 0
    grandTotal := 100
    paymentStatus := .pending
    amountPaid := 0
    amountDue := 100
    status := .confirmed }

/-- A stored order that is already `completed` with an issued invoice. -/
def completedOrder : Order :=
  { g100order with status := .completed, invoiceNumber := some "INV2025010001" }

/-- The movement recorded by `stockIn emptyProduct 4`. -/
def inMovement : StockMovement :=
  { productId := "EMPTY-1", type := .stock_in, quantity := 4, previousStock := 0, newStock := 4 }

/-- The product state written by `stockIn emptyProduct 4`. -/
def inProduct2 : Product := { emptyProduct with inStock := true }

/-- The movement recorded by `stockOut steelProduct 10`. -/
def outMovement : StockMovement :=
  { productId := "STEEL-1", type := .stock_out, quantity := 10, previousStock := 10, newStock := 0 }

/-- The product state written by `stockOut steelProduct 10`. -/
def outProduct2 : Product := { steelProduct with inStock := false }

/-- The order the create-order route builds for the spec's two-item
    scenario (qty 2 at 65000 and qty 10 at 58). -/
def scenarioOrder : Order :=
  builtOrder "ORD2025030001" "Cust"
    [priceItem steelProduct 2, priceItem wireProduct 10] none

/-- The order the create-order route builds for one unit of the one-paisa
    product. -/
def pennyOrder : Order :=
  builtOrder "ORD2025030001" "Cust" [priceItem pennyProduct 1] none

/-! ### Helper lemmas -/

theorem Order.validB_iff {o : Order} :
    o.validB = true ↔
      (∀ it ∈ o.items, 1 ≤ it.quantity ∧ 0 ≤ it.unitPrice ∧ 0 ≤ it.discount) ∧
        0 ≤ o.subtotal ∧ 0 ≤ o.totalDiscount ∧ 0 ≤ o.totalGst ∧ 0 ≤ o.grandTotal ∧
        0 ≤ o.amountPaid ∧ 0 ≤ o.amountDue ∧ o.customerName ≠ "" := by
  simp [Order.validB, OrderItem.validB, and_assoc]

theorem paymentStatusOf_paid {a g : ℚ} (h : g ≤ a) : paymentStatusOf a g = .paid := by
  simp [paymentStatusOf, h]

theorem paymentStatusOf_partPaid {a g : ℚ} (h0 : 0 < a) (h1 : a < g) :
    paymentStatusOf a g = .partPaid := by
  simp [paymentStatusOf, not_le.2 h1, h0]

theorem paymentStatusOf_pending {a g : ℚ} (h0 : a ≤ 0) (h1 : a < g) :
    paymentStatusOf a g = .pending := by
  simp [paymentStatusOf, not_le.2 h1, not_lt.2 h0]

theorem processItems_shape {catalog : List Product} {ri : List (String × ℚ)}
    {pItems : List OrderItem} (h : processItems catalog ri = .ok pItems) :
    ∀ it ∈ pItems, ∃ p qty, it = priceItem p qty := by
  induction ri generalizing pItems with
  | nil =>
    simp only [processItems, Res.ok.injEq] at h
    subst h
    simp
  | cons hd tl ih =>
    obtain ⟨pid, qty⟩ := hd
    simp only [processItems] at h
    cases hf : findProduct catalog pid with
    | none => rw [hf] at h; exact absurd h (by simp)
    | some p =>
      rw [hf] at h
      cases hp : processItems catalog tl with
      | err e => rw [hp] at h; exact absurd h (by simp)
      | ok its =>
        rw [hp] at h
        injection h with h
        subst h
        intro it hit
        rcases List.mem_cons.1 hit with h1 | h2
        · exact ⟨p, qty, h1⟩
        · exact ih hp it h2

theorem processItems_quantity {catalog : List Product} {ri : List (String × ℚ)}
    {pItems : List OrderItem} {pid : String} {qty : ℚ}
    (h : processItems catalog ri = .ok pItems) (hmem : (pid, qty) ∈ ri) :
    ∃ it ∈ pItems, it.quantity = qty := by
  induction ri generalizing pItems with
  | nil => cases hmem
  | cons hd tl ih =>
    obtain ⟨pid2, qty2⟩ := hd
    simp only [processItems] at h
    cases hf : findProduct catalog pid2 with
    | none => rw [hf] at h; exact absurd h (by simp)
    | some p =>
      rw [hf] at h
      cases hp : processItems catalog tl with
      | err e => rw [hp] at h; exact absurd h (by simp)
      | ok its =>
        rw [hp] at h
        injection h with h
        subst h
        rcases List.mem_cons.1 hmem with h1 | h2
        · refine ⟨priceItem p qty2, List.mem_cons_self _ _, ?_⟩
          obtain ⟨e1, e2⟩ := Prod.mk.injEq .. ▸ h1
          simp [priceItem, e2]
        · obtain ⟨it, hit, he⟩ := ih hp h2
          exact ⟨it, List.mem_cons_of_mem _ hit, he⟩

theorem createOrder_ok_inv {catalog : List Product} {onr cn : String}
    {ri : List (String × ℚ)} {ap : Option ℚ} {o : Order}
    (h : createOrder catalog onr cn ri ap = .ok o) :
    ∃ pItems, processItems catalog ri = .ok pItems ∧
      o = builtOrder onr cn pItems ap ∧ (builtOrder onr cn pItems ap).validB = true := by
  unfold createOrder at h
  by_cases h0 : (strTrim cn == "" || ri.isEmpty) = true
  · rw [if_pos h0] at h; exact absurd h (by simp)
  · rw [if_neg h0] at h
    cases hp : processItems catalog ri with
    | err e => rw [hp] at h; exact absurd h (by simp)
    | ok pItems =>
      rw [hp] at h
      dsimp only at h
      by_cases hv : (builtOrder onr cn pItems ap).validB = true
      · rw [if_pos hv] at h
        injection h with h
        exact ⟨pItems, rfl, h.symm, hv⟩
      · rw [if_neg hv] at h; exact absurd h (by simp)

theorem createOrder_eq {catalog : List Product} {onr cn : String}
    {ri : List (String × ℚ)} {ap : Option ℚ} {pItems : List OrderItem}
    (h0 : (strTrim cn == "") = false) (h1 : ri.isEmpty = false)
    (hp : processItems catalog ri = .ok pItems) :
    createOrder catalog onr cn ri ap =
      if (builtOrder onr cn pItems ap).validB then .ok (builtOrder onr cn pItems ap)
      else .err .serverError := by
  unfold createOrder
  rw [h0, h1, hp]
  rfl

theorem updateOrder_eq (order : Order) (statusReq : Option OrderStatus)
    (amountPaidReq : Option ℚ) :
    updateOrder order statusReq amountPaidReq =
      if (updatedOrder order statusReq amountPaidReq).validB then
        .ok (updatedOrder order statusReq amountPaidReq)
      else .err .serverError := rfl

theorem updateOrder_ok_inv {order : Order} {statusReq : Option OrderStatus}
    {amountPaidReq : Option ℚ} {o2 : Order}
    (h : updateOrder order statusReq amountPaidReq = .ok o2) :
    o2 = updatedOrder order statusReq amountPaidReq ∧
      (updatedOrder order statusReq amountPaidReq).validB = true := by
  rw [updateOrder_eq] at h
  by_cases hv : (updatedOrder order statusReq amountPaidReq).validB = true
  · rw [if_pos hv] at h
    injection h with h
    exact ⟨h.symm, hv⟩
  · rw [if_neg hv] at h; exact absurd h (by simp)

theorem updatedOrder_pay (order : Order) (a : ℚ) :
    updatedOrder order none (some a) =
      { order with
        amountPaid := a
        amountDue := order.grandTotal - a
        paymentStatus := paymentStatusOf a order.grandTotal } := rfl

theorem updatedOrder_status (order : Order) (s : OrderStatus) :
    updatedOrder order (some s) none = { order with status := s } := rfl

theorem g100order_validB_pay (a : ℚ) (h0 : 0 ≤ a) (h1 : a ≤ 100) :
    (updatedOrder g100order none (some a)).validB = true := by
  rw [updatedOrder_pay, Order.validB_iff]
  refine ⟨?_, ?_, ?_, ?_, ?_, ?_, ?_, ?_⟩
  · intro it hit
    simp [g100order] at hit
  · norm_num [g100order]
  · norm_num [g100order]
  · norm_num [g100order]
  · norm_num [g100order]
  · simpa [g100order] using h0
  · have h2 : (0 : ℚ) ≤ 100 - a := by linarith
    simpa [g100order] using h2
  · simp [g100order]

theorem g100order_update_ok (a : ℚ) (h0 : 0 ≤ a) (h1 : a ≤ 100) :
    updateOrder g100order none (some a) =
      .ok (updatedOrder g100order none (some a)) := by
  rw [updateOrder_eq, if_pos (g100order_validB_pay a h0 h1)]

theorem updateOrder_overpaid (order : Order) (a : ℚ) (h : order.grandTotal < a) :
    updateOrder order none (some a) = .err .serverError := by
  have hneg : ¬ (updatedOrder order none (some a)).validB = true := by
    rw [updatedOrder_pay, Order.validB_iff]
    intro hv
    obtain ⟨-, -, -, -, -, -, hdue, -⟩ := hv
    dsimp only at hdue
    linarith
  rw [updateOrder_eq, if_neg hneg]

theorem natDigitsAux_length {f n d : Nat} (hf : n < f) (h1 : 10 ^ d ≤ n)
    (h2 : n < 10 ^ (d + 1)) : (natDigitsAux f n).length = d + 1 := by
  induction f generalizing n d with
  | zero => omega
  | succ f ih =>
    by_cases hn : n < 10
    · have hd : d = 0 := by
        by_contra hd
        have h10 : (10 : Nat) ^ 1 ≤ 10 ^ d := Nat.pow_le_pow_right (by omega) (by omega)
        simp only [pow_one] at h10
        omega
      subst hd
      simp [natDigitsAux, if_pos hn]
    · have hd : 1 ≤ d := by
        by_contra hd
        have : d = 0 := by omega
        subst this
        norm_num at h2
        omega
      obtain ⟨e, rfl⟩ : ∃ e, d = e + 1 := ⟨d - 1, by omega⟩
      have hrec : (natDigitsAux f (n / 10)).length = e + 1 := by
        apply ih
        · omega
        · rw [Nat.le_div_iff_mul_le (by omega : 0 < 10)]
          calc 10 ^ e * 10 = 10 ^ (e + 1) := (pow_succ 10 e).symm
            _ ≤ n := h1
        · rw [Nat.div_lt_iff_lt_mul (by omega : 0 < 10)]
          calc n < 10 ^ (e + 1 + 1) := h2
            _ = 10 ^ (e + 1) * 10 := pow_succ 10 (e + 1)
      simp [natDigitsAux, if_neg hn, hrec]

theorem natStr_length {n d : Nat} (h1 : 10 ^ d ≤ n) (h2 : n < 10 ^ (d + 1)) :
    (natStr n).length = d + 1 := by
  have h := natDigitsAux_length (f := n + 1) (by omega) h1 h2
  simpa [natStr, String.length] using h

theorem padStart_length (k : Nat) (s : String) :
    (padStart k s).length = max k s.length := by
  simp only [padStart, String.length, List.length_append, List.length_replicate]
  omega

/-! ### Claim theorems -/

/-- C3: every generated order number and invoice number equals the fixed
    scope tag — `ORD` resp. `INV`, then the four-digit year, then the
    two-digit zero-padded month — followed by a zero-padded ordinal equal to
    the count of previously issued identifiers of that scope carrying that
    calendar month's tag, plus one. -/
theorem c3_identifier_format (existingOrd existingInv : List String) (y m : Nat)
    (hy1 : 1000 ≤ y) (hy2 : y < 10000) (hm1 : 1 ≤ m) (hm2 : m ≤ 12) :
    generateOrderNumber existingOrd y m =
      "ORD" ++ natStr y ++ padStart 2 (natStr m) ++
        padStart 4 (natStr ((existingOrd.filter
          (fun s => s.startsWith (scopeTag "ORD" y m))).length + 1)) ∧
    generateInvoiceNumber existingInv y m =
      "INV" ++ natStr y ++ padStart 2 (natStr m) ++
        padStart 4 (natStr ((existingInv.filter
          (fun s => s.startsWith (scopeTag "INV" y m))).length + 1)) ∧
    (natStr y).length = 4 ∧
    (padStart 2 (natStr m)).length = 2 ∧
    ∀ count : Nat, 4 ≤ (padStart 4 (natStr (count + 1))).length := by
  refine ⟨rfl, rfl, ?_, ?_, ?_⟩
  · have h := natStr_length (n := y) (d := 3) (by norm_num; omega) (by norm_num; omega)
    omega
  · by_cases hm : m < 10
    · have h := natStr_length (n := m) (d := 0) (by norm_num; omega) (by norm_num; omega)
      rw [padStart_length]
      omega
    · have h := natStr_length (n := m) (d := 1) (by norm_num; omega) (by norm_num; omega)
      rw [padStart_length]
      omega
  · intro count
    rw [padStart_length]
    omega

/-- Witness for C3: with an empty store in March 2025 the generated order
    number is `ORD2025030001`. -/
theorem c3_identifier_format_witness :
    generateOrderNumber [] 2025 3 = "ORD2025030001" := by
  rw [(c3_identifier_format [] [] 2025 3 (by decide) (by decide) (by decide) (by decide)).1]
  decide

/-- C2 (amended): the delta formulas hold for every recorded movement —
    `stock_in` and `return` give `newStock = previousStock + quantity`;
    `stock_out`, `adjustment` and `damage` give `newStock = max 0
    (previousStock − quantity)` — and the movement record is created in every
    accepted case.  But `previousStock` is not an on-hand quantity read from
    the ledger: the product state is only the boolean `inStock` flag, and the
    code records `previousStock = quantity` (the requested amount itself) for
    a stock_out on an in-stock product, `1` for the adjustment kinds, and `0`
    when the flag is off. -/
theorem c2_stock_movement_deltas :
    (∀ (p : Product) (q : ℤ) (mv : StockMovement) (p2 : Product),
        stockIn p q = .ok (mv, p2) →
        mv.quantity = q ∧ mv.previousStock = (if p.inStock then 1 else 0) ∧
          mv.newStock = mv.previousStock + mv.quantity) ∧
    (∀ (p : Product) (q : ℤ) (mv : StockMovement) (p2 : Product),
        stockOut p q = .ok (mv, p2) →
        mv.quantity = q ∧ mv.previousStock = (if p.inStock then q else 0) ∧
          mv.newStock = max 0 (mv.previousStock - mv.quantity)) ∧
    (∀ (p : Product) (q : ℤ) (t : MovementType) (mv : StockMovement) (p2 : Product),
        stockAdjustment p q t = .ok (mv, p2) →
        mv.quantity = q ∧ mv.previousStock = (if p.inStock then 1 else 0) ∧
          mv.newStock = (if t = .ret then mv.previousStock + mv.quantity
            else max 0 (mv.previousStock - mv.quantity))) := by
  refine ⟨?_, ?_, ?_⟩
  · intro p q mv p2 h
    unfold stockIn at h
    by_cases hq : q < 1
    · rw [if_pos hq] at h; exact absurd h (by simp)
    · rw [if_neg hq] at h
      dsimp only at h
      injection h with h
      rw [Prod.mk.injEq] at h
      obtain ⟨hm, hp⟩ := h
      subst hm
      exact ⟨rfl, rfl, rfl⟩
  · intro p q mv p2 h
    unfold stockOut at h
    by_cases hq : q < 1
    · rw [if_pos hq] at h; exact absurd h (by simp)
    · rw [if_neg hq] at h
      dsimp only at h
      injection h with h
      rw [Prod.mk.injEq] at h
      obtain ⟨hm, hp⟩ := h
      subst hm
      exact ⟨rfl, rfl, rfl⟩
  · intro p q t mv p2 h
    unfold stockAdjustment at h
    by_cases hq : q < 1
    · rw [if_pos hq] at h; exact absurd h (by simp)
    · rw [if_neg hq] at h
      by_cases ht : t ≠ .adjustment ∧ t ≠ .ret ∧ t ≠ .damage
      · rw [if_pos ht] at h; exact absurd h (by simp)
      · rw [if_neg ht] at h
        dsimp only at h
        injection h with h
        rw [Prod.mk.injEq] at h
        obtain ⟨hm, hp⟩ := h
        subst hm
        exact ⟨rfl, rfl, rfl⟩

/-- Witness for C2 (amended): the stock_in of 4 on an out-of-stock product
    and the stock_out of 10 on an in-stock product, with their recorded
    movements. -/
theorem c2_stock_movement_deltas_witness :
    (inMovement.quantity = 4 ∧ inMovement.previousStock = 0 ∧
       inMovement.newStock = inMovement.previousStock + inMovement.quantity) ∧
    (outMovement.quantity = 10 ∧ outMovement.previousStock = 10 ∧
       outMovement.newStock = max 0 (outMovement.previousStock - outMovement.quantity)) :=
  ⟨c2_stock_movement_deltas.1 emptyProduct 4 inMovement inProduct2 (by decide),
   c2_stock_movement_deltas.2.1 steelProduct 10 outMovement outProduct2 (by decide)⟩

/-- Counterexample to C2 as stated: after a stock_in of 4 on an out-of-stock
    product the ledger-derived on-hand is 4, yet the following stock_out of
    10 records `previousStock = 10` (the requested quantity), not the
    on-hand 4 the claim requires; the movement is still created with
    `newStock = 0`. -/
theorem c2_counterexample :
    stockIn emptyProduct 4 = .ok (inMovement, inProduct2) ∧
    ledgerOnHand [inMovement] = 4 ∧
    (stockOut inProduct2 10).map (fun s => (s.1.previousStock, s.1.newStock)) =
      .ok (10, 0) ∧
    (10 : ℤ) ≠ 4 := by
  exact ⟨by decide, by decide, by decide, by decide⟩

/-- C10: every accepted stock_out against a product whose `inStock` flag is
    true records `previousStock` equal to the requested quantity itself,
    `newStock = 0`, and leaves the product flagged out of stock — regardless
    of the quantity requested. -/
theorem c10_stock_out_depletes (p : Product) (q : ℤ) (mv : StockMovement)
    (p2 : Product) (hin : p.inStock = true) (h : stockOut p q = .ok (mv, p2)) :
    mv.previousStock = q ∧ mv.newStock = 0 ∧ p2.inStock = false := by
  unfold stockOut at h
  by_cases hq : q < 1
  · rw [if_pos hq] at h; exact absurd h (by simp)
  · rw [if_neg hq] at h
    rw [hin] at h
    simp only [if_true, sub_self, max_self] at h
    injection h with h
    rw [Prod.mk.injEq] at h
    obtain ⟨hm, hp⟩ := h
    subst hm
    subst hp
    simp

/-- Witness for C10: the stock_out of 10 against the in-stock product. -/
theorem c10_stock_out_depletes_witness :
    outMovement.previousStock = 10 ∧ outMovement.newStock = 0 ∧
      outProduct2.inStock = false :=
  c10_stock_out_depletes steelProduct 10 outMovement outProduct2 (by decide) (by decide)

/-- C4: a call to issue an invoice for an order whose `invoiceNumber` is
    already set is rejected with the `Invoice exists` error and the rejected
    call leaves the stored order unchanged; a successful call is only
    possible when `invoiceNumber` was unset, and it assigns the freshly
    generated invoice number and sets the status to `completed` in the same
    write. -/
theorem c4_issue_invoice :
    (∀ (order : Order) (existing : List String) (y m : Nat) (s : String),
        order.invoiceNumber = some s →
        issueInvoice existing y m order = .err (.badRequest "Invoice exists") ∧
          persist order (issueInvoice existing y m order) = order) ∧
    (∀ (order : Order) (existing : List String) (y m : Nat) (o2 : Order),
        issueInvoice existing y m order = .ok o2 →
        order.invoiceNumber = none ∧
          o2.invoiceNumber = some (generateInvoiceNumber existing y m) ∧
          o2.status = .completed) := by
  constructor
  · intro order existing y m s h
    unfold issueInvoice
    rw [h]
    exact ⟨rfl, rfl⟩
  · intro order existing y m o2 h
    unfold issueInvoice at h
    cases hi : order.invoiceNumber with
    | some s => rw [hi] at h; exact absurd h (by simp)
    | none =>
      rw [hi] at h
      dsimp only at h
      by_cases hv :
          ({ order with
             invoiceNumber := some (generateInvoiceNumber existing y m)
             status := OrderStatus.completed } : Order).validB = true
      · rw [if_pos hv] at h
        injection h with h
        subst h
        exact ⟨rfl, rfl, rfl⟩
      · rw [if_neg hv] at h; exact absurd h (by simp)

/-- Witness for C4: the already-invoiced order is rejected; the fresh order
    gets `INV2025010001` and becomes completed. -/
theorem c4_issue_invoice_witness :
    (issueInvoice [] 2025 1 completedOrder = .err (.badRequest "Invoice exists") ∧
      persist completedOrder (issueInvoice [] 2025 1 completedOrder) = completedOrder) ∧
    (g100order.invoiceNumber = none ∧
      ({ g100order with
         invoiceNumber := some (generateInvoiceNumber [] 2025 1)
         status := OrderStatus.completed } : Order).invoiceNumber =
        some (generateInvoiceNumber [] 2025 1) ∧
      ({ g100order with
         invoiceNumber := some (generateInvoiceNumber [] 2025 1)
         status := OrderStatus.completed } : Order).status = .completed) :=
  ⟨c4_issue_invoice.1 completedOrder [] 2025 1 "INV2025010001" (by decide),
   c4_issue_invoice.2 g100order [] 2025 1 _ (by decide)⟩

/-- C5 (amended): the computed payment status is the pure function of
    `(amountPaid, grandTotal)` the spec gives — `paid` when `a ≥ g`,
    `partial` when `0 < a < g`, else `pending` — and it is what order
    creation and accepted payment updates store; but an overpayment update
    (`a > g`) is rejected whole by the `amountDue min 0` schema validator, so
    `(150, 100)` stores nothing and the previous status survives instead of
    `paid` being stored. -/
theorem c5_payment_status :
    (∀ a g : ℚ,
        (g ≤ a → paymentStatusOf a g = .paid) ∧
        (0 < a → a < g → paymentStatusOf a g = .partPaid) ∧
        (a ≤ 0 → a < g → paymentStatusOf a g = .pending)) ∧
    (∀ (catalog : List Product) (onr cn : String) (ri : List (String × ℚ))
        (ap : Option ℚ) (o : Order), createOrder catalog onr cn ri ap = .ok o →
        o.paymentStatus = paymentStatusOf (ap.getD 0) o.grandTotal) ∧
    (∀ (order : Order) (a : ℚ) (o2 : Order),
        updateOrder order none (some a) = .ok o2 →
        o2.paymentStatus = paymentStatusOf a order.grandTotal) ∧
    (persist g100order (updateOrder g100order none (some 0))).paymentStatus =
      .pending ∧
    (persist g100order (updateOrder g100order none (some 50))).paymentStatus =
      .partPaid ∧
    (persist g100order (updateOrder g100order none (some 100))).paymentStatus =
      .paid ∧
    updateOrder g100order none (some 150) = .err .serverError ∧
    (persist g100order (updateOrder g100order none (some 150))).paymentStatus =
      .pending := by
  refine ⟨?_, ?_, ?_, ?_, ?_, ?_, ?_, ?_⟩
  · intro a g
    exact ⟨fun h => paymentStatusOf_paid h,
      fun h0 h1 => paymentStatusOf_partPaid h0 h1,
      fun h0 h1 => paymentStatusOf_pending h0 h1⟩
  · intro catalog onr cn ri ap o h
    obtain ⟨pItems, hp, rfl, hv⟩ := createOrder_ok_inv h
    rfl
  · intro order a o2 h
    obtain ⟨rfl, hv⟩ := updateOrder_ok_inv h
    rfl
  · rw [g100order_update_ok 0 (by norm_num) (by norm_num)]
    exact paymentStatusOf_pending (a := 0) (g := 100) (by norm_num) (by norm_num)
  · rw [g100order_update_ok 50 (by norm_num) (by norm_num)]
    exact paymentStatusOf_partPaid (a := 50) (g := 100) (by norm_num) (by norm_num)
  · rw [g100order_update_ok 100 (by norm_num) (by norm_num)]
    exact paymentStatusOf_paid (a := 100) (g := 100) (by norm_num)
  · exact updateOrder_overpaid g100order 150 (by norm_num [g100order])
  · rw [updateOrder_overpaid g100order 150 (by norm_num [g100order])]
    rfl

/-- Witness for C5 at the spec's probe points. -/
theorem c5_payment_status_witness :
    paymentStatusOf 150 100 = .paid ∧ paymentStatusOf 50 100 = .partPaid ∧
      paymentStatusOf 0 100 = .pending :=
  ⟨(c5_payment_status.1 150 100).1 (by norm_num),
   (c5_payment_status.1 50 100).2.1 (by norm_num) (by norm_num),
   (c5_payment_status.1 0 100).2.2 (by norm_num) (by norm_num)⟩

/-- Counterexample to C5 as stated: the overpayment update `(150, 100)` does
    not store `paid` — the write is rejected with a server error and the
    stored payment status is still `pending`. -/
theorem c5_counterexample :
    updateOrder g100order none (some 150) = .err .serverError ∧
    (persist g100order (updateOrder g100order none (some 150))).paymentStatus =
      .pending ∧
    PaymentStatus.pending ≠ PaymentStatus.paid := by
  have h := updateOrder_overpaid g100order 150 (by norm_num [g100order])
  exact ⟨h, by rw [h]; rfl, by decide⟩

/-- C6 (amended): the route computes `amountDue = grandTotal − amountPaid`
    with no clamping, and that value is what creation and accepted updates
    store; but when the result is negative (overpayment) the save fails the
    schema's `amountDue min 0` validator, the route answers a server error
    and nothing is persisted — so no negative `amountDue` is ever stored. -/
theorem c6_amount_due :
    (∀ (catalog : List Product) (onr cn : String) (ri : List (String × ℚ))
        (ap : Option ℚ) (o : Order), createOrder catalog onr cn ri ap = .ok o →
        o.amountDue = o.grandTotal - ap.getD 0) ∧
    (∀ (order : Order) (a : ℚ) (o2 : Order),
        updateOrder order none (some a) = .ok o2 →
        o2.amountDue = order.grandTotal - a) ∧
    (∀ (order : Order) (a : ℚ),
        (updatedOrder order none (some a)).amountDue = order.grandTotal - a) ∧
    (∀ (order : Order) (a : ℚ), order.grandTotal < a →
        updateOrder order none (some a) = .err .serverError ∧
          persist order (updateOrder order none (some a)) = order) := by
  refine ⟨?_, ?_, ?_, ?_⟩
  · intro catalog onr cn ri ap o h
    obtain ⟨pItems, hp, rfl, hv⟩ := createOrder_ok_inv h
    rfl
  · intro order a o2 h
    obtain ⟨rfl, hv⟩ := updateOrder_ok_inv h
    rfl
  · intro order a
    rfl
  · intro order a h
    have he := updateOrder_overpaid order a h
    exact ⟨he, by rw [he]; rfl⟩

/-- Witness for C6: the accepted half-payment stores `amountDue = 100 − 50`,
    and the overpayment update is rejected leaving the order unchanged. -/
theorem c6_amount_due_witness :
    (updatedOrder g100order none (some 50)).amountDue = g100order.grandTotal - 50 ∧
    (updateOrder g100order none (some 150) = .err .serverError ∧
      persist g100order (updateOrder g100order none (some 150)) = g100order) :=
  ⟨c6_amount_due.2.1 g100order 50 (updatedOrder g100order none (some 50))
      (g100order_update_ok 50 (by norm_num) (by norm_num)),
   c6_amount_due.2.2.2 g100order 150 (by norm_num [g100order])⟩

/-- Counterexample to C6 as stated: for the overpayment `a = 150`, `g = 100`
    the in-memory `amountDue` is −50, but the update is rejected and the
    stored `amountDue` is still 100, not `g − a`. -/
theorem c6_counterexample :
    (updatedOrder g100order none (some 150)).amountDue = -50 ∧
    updateOrder g100order none (some 150) = .err .serverError ∧
    (persist g100order (updateOrder g100order none (some 150))).amountDue = 100 ∧
    (100 : ℚ) ≠ 100 - 150 := by
  have h := updateOrder_overpaid g100order 150 (by norm_num [g100order])
  refine ⟨by norm_num [updatedOrder_pay, g100order], h, by rw [h]; rfl, by norm_num⟩

/-- C8 (amended): no transition discipline is enforced on the fulfillment
    status: a plain update sets it to any of the five enum statuses from any
    current status (the write succeeds whenever the rest of the document is
    schema-valid), so `completed` is also reachable directly by update and
    orders move out of `completed`/`cancelled`; invoice issuance does set the
    status to `completed`. -/
theorem c8_status_transitions :
    (∀ (order : Order) (s : OrderStatus) (o2 : Order),
        updateOrder order (some s) none = .ok o2 → o2.status = s) ∧
    (∀ (order : Order) (s : OrderStatus), order.validB = true →
        updateOrder order (some s) none = .ok { order with status := s }) ∧
    (∀ (order : Order) (existing : List String) (y m : Nat) (o2 : Order),
        issueInvoice existing y m order = .ok o2 → o2.status = .completed) := by
  refine ⟨?_, ?_, ?_⟩
  · intro order s o2 h
    obtain ⟨rfl, hv⟩ := updateOrder_ok_inv h
    rfl
  · intro order s hv
    have hv2 : (updatedOrder order (some s) none).validB = true := hv
    rw [updateOrder_eq, if_pos hv2]
    rfl
  · intro order existing y m o2 h
    unfold issueInvoice at h
    cases hi : order.invoiceNumber with
    | some s => rw [hi] at h; exact absurd h (by simp)
    | none =>
      rw [hi] at h
      dsimp only at h
      by_cases hv :
          ({ order with
             invoiceNumber := some (generateInvoiceNumber existing y m)
             status := OrderStatus.completed } : Order).validB = true
      · rw [if_pos hv] at h
        injection h with h
        subst h
        rfl
      · rw [if_neg hv] at h; exact absurd h (by simp)

/-- Witness for C8: a confirmed order is moved to `processing` by update. -/
theorem c8_status_transitions_witness :
    updateOrder g100order (some .processing) none =
      .ok { g100order with status := .processing } :=
  c8_status_transitions.2.1 g100order .processing (by decide)

/-- Counterexample to C8 as stated: a `completed` order is moved back to
    `draft` by a plain update and the write persists — `completed` is not
    terminal and `completed → draft` is not among the claim's edges. -/
theorem c8_counterexample :
    updateOrder completedOrder (some .draft) none =
      .ok { completedOrder with status := .draft } ∧
    completedOrder.status = .completed ∧
    OrderStatus.draft ≠ OrderStatus.completed := by
  exact ⟨by decide, rfl, by decide⟩

theorem scenarioOrder_validB : scenarioOrder.validB = true := by
  rw [Order.validB_iff]
  refine ⟨?_, ?_, ?_, ?_, ?_, ?_, ?_, by decide⟩
  · intro it hit
    have hit2 : it ∈ [priceItem steelProduct 2, priceItem wireProduct 10] := hit
    rcases List.mem_cons.1 hit2 with rfl | h2
    · norm_num [priceItem, steelProduct]
    · rcases List.mem_cons.1 h2 with rfl | h3
      · norm_num [priceItem, wireProduct]
      · cases h3
  · norm_num [scenarioOrder, builtOrder, priceItem, steelProduct, wireProduct]
  · norm_num [scenarioOrder, builtOrder]
  · norm_num [scenarioOrder, builtOrder, priceItem, steelProduct, wireProduct]
  · norm_num [scenarioOrder, builtOrder, priceItem, steelProduct, wireProduct]
  · norm_num [scenarioOrder, builtOrder]
  · norm_num [scenarioOrder, builtOrder, priceItem, steelProduct, wireProduct]

theorem scenarioCreate_eq :
    createOrder scenarioCatalog "ORD2025030001" "Cust"
      [("STEEL-1", 2), ("WIRE-1", 10)] none = .ok scenarioOrder := by
  have hv : (builtOrder "ORD2025030001" "Cust"
      [priceItem steelProduct 2, priceItem wireProduct 10] none).validB = true :=
    scenarioOrder_validB
  rw [@createOrder_eq scenarioCatalog "ORD2025030001" "Cust"
      [("STEEL-1", 2), ("WIRE-1", 10)] none
      [priceItem steelProduct 2, priceItem wireProduct 10]
      (by decide) (by decide) rfl,
    if_pos hv]
  rfl

theorem scenarioOrder_totals :
    scenarioOrder.subtotal = 130580 ∧ scenarioOrder.totalGst = 23504.4 ∧
      scenarioOrder.grandTotal = 154084.4 := by
  norm_num [scenarioOrder, builtOrder, priceItem, steelProduct, wireProduct]

theorem pennyOrder_validB : pennyOrder.validB = true := by
  rw [Order.validB_iff]
  refine ⟨?_, ?_, ?_, ?_, ?_, ?_, ?_, by decide⟩
  · intro it hit
    have hit2 : it ∈ [priceItem pennyProduct 1] := hit
    rcases List.mem_cons.1 hit2 with rfl | h2
    · norm_num [priceItem, pennyProduct]
    · cases h2
  · norm_num [pennyOrder, builtOrder, priceItem, pennyProduct]
  · norm_num [pennyOrder, builtOrder]
  · norm_num [pennyOrder, builtOrder, priceItem, pennyProduct]
  · norm_num [pennyOrder, builtOrder, priceItem, pennyProduct]
  · norm_num [pennyOrder, builtOrder]
  · norm_num [pennyOrder, builtOrder, priceItem, pennyProduct]

theorem pennyCreate_eq :
    createOrder pennyCatalog "ORD2025030001" "Cust" [("PENNY-1", 1)] none =
      .ok pennyOrder := by
  have hv : (builtOrder "ORD2025030001" "Cust"
      [priceItem pennyProduct 1] none).validB = true := pennyOrder_validB
  rw [@createOrder_eq pennyCatalog "ORD2025030001" "Cust" [("PENNY-1", 1)] none
      [priceItem pennyProduct 1] (by decide) (by decide) rfl,
    if_pos hv]
  rfl

/-- C1: every successfully created order satisfies, per line, discount = 0,
    gstAmount = (unitPrice × quantity) × 18 / 100 and totalAmount =
    unitPrice × quantity + gstAmount, and at order level subtotal =
    Σ unitPrice × quantity, totalGst = Σ gstAmount and grandTotal =
    subtotal + totalGst; in particular the two-item scenario (qty 2 at
    65000, qty 10 at 58) yields subtotal 130580, totalGst 23504.40 and
    grandTotal 154084.40. -/
theorem c1_order_pricing :
    (∀ (catalog : List Product) (onr cn : String) (ri : List (String × ℚ))
        (ap : Option ℚ) (o : Order), createOrder catalog onr cn ri ap = .ok o →
      (∀ it ∈ o.items, it.discount = 0 ∧
          it.gstAmount = it.unitPrice * it.quantity * 18 / 100 ∧
          it.totalAmount = it.unitPrice * it.quantity + it.gstAmount) ∧
        o.subtotal = (o.items.map (fun it => it.unitPrice * it.quantity)).sum ∧
        o.totalGst = (o.items.map (fun it => it.gstAmount)).sum ∧
        o.grandTotal = o.subtotal + o.totalGst) ∧
    (createOrder scenarioCatalog "ORD2025030001" "Cust"
        [("STEEL-1", 2), ("WIRE-1", 10)] none).map
      (fun o => (o.subtotal, o.totalGst, o.grandTotal)) =
      .ok (130580, 23504.4, 154084.4) := by
  constructor
  · intro catalog onr cn ri ap o h
    obtain ⟨pItems, hp, rfl, hv⟩ := createOrder_ok_inv h
    refine ⟨?_, rfl, rfl, rfl⟩
    intro it hit
    obtain ⟨p, qty, rfl⟩ := processItems_shape hp it hit
    exact ⟨rfl, rfl, rfl⟩
  · rw [scenarioCreate_eq]
    obtain ⟨h1, h2, h3⟩ := scenarioOrder_totals
    simp only [Res.map, h1, h2, h3]

/-- Witness for C1: the order-level conclusions at the spec's two-item
    scenario order. -/
theorem c1_order_pricing_witness :
    scenarioOrder.subtotal =
        (scenarioOrder.items.map (fun it => it.unitPrice * it.quantity)).sum ∧
      scenarioOrder.totalGst = (scenarioOrder.items.map (fun it => it.gstAmount)).sum ∧
      scenarioOrder.grandTotal = scenarioOrder.subtotal + scenarioOrder.totalGst :=
  (c1_order_pricing.1 scenarioCatalog "ORD2025030001" "Cust"
    [("STEEL-1", 2), ("WIRE-1", 10)] none scenarioOrder scenarioCreate_eq).2

/-- C7 (amended): every stored line's gstAmount is exactly
    itemTotal × 18 / 100 with no rounding to the smallest currency unit, and
    the amounts are plain JS numbers (idealised here as exact rationals) —
    not integer minor-units: a line's gstAmount need not be a whole number
    of paise, as the one-paisa line shows (its gst × 100 has denominator
    50). -/
theorem c7_gst_unrounded :
    (∀ (catalog : List Product) (onr cn : String) (ri : List (String × ℚ))
        (ap : Option ℚ) (o : Order), createOrder catalog onr cn ri ap = .ok o →
        ∀ it ∈ o.items, it.gstAmount = it.unitPrice * it.quantity * 18 / 100) ∧
    (priceItem pennyProduct 1).gstAmount = 9 / 5000 ∧
    ((9 : ℚ) / 5000 * 100).den = 50 := by
  refine ⟨?_, ?_, ?_⟩
  · intro catalog onr cn ri ap o h it hit
    obtain ⟨pItems, hp, rfl, hv⟩ := createOrder_ok_inv h
    obtain ⟨p, qty, rfl⟩ := processItems_shape hp it hit
    rfl
  · norm_num [priceItem, pennyProduct]
  · norm_num [Rat.den]

/-- Witness for C7: the exact-gst conclusion at the one-paisa line. -/
theorem c7_gst_unrounded_witness :
    (priceItem pennyProduct 1).gstAmount =
      (priceItem pennyProduct 1).unitPrice * (priceItem pennyProduct 1).quantity *
        18 / 100 :=
  c7_gst_unrounded.1 pennyCatalog "ORD2025030001" "Cust" [("PENNY-1", 1)] none
    pennyOrder pennyCreate_eq (priceItem pennyProduct 1) (List.mem_singleton_self _)

/-- Counterexample to C7 as stated: the one-paisa line stores gstAmount
    0.0018 = 9/5000, while rounding half-up to the smallest currency unit
    would give 0 — the stored value is unrounded and is not a whole number
    of paise. -/
theorem c7_counterexample :
    (createOrder pennyCatalog "ORD2025030001" "Cust" [("PENNY-1", 1)] none).map
        (fun o => o.items.map (fun it => it.gstAmount)) = .ok [9 / 5000] ∧
    roundHalfUpPaise (9 / 5000) = 0 ∧
    (9 : ℚ) / 5000 ≠ 0 := by
  refine ⟨?_, ?_, by norm_num⟩
  · rw [pennyCreate_eq]
    simp only [Res.map]
    norm_num [pennyOrder, builtOrder, priceItem, pennyProduct]
  · have hfl : ⌊(9 : ℚ) / 5000 * 100 + 1 / 2⌋ = 0 :=
      Int.floor_eq_iff.mpr (by norm_num)
    rw [roundHalfUpPaise, hfl]
    norm_num

/-- C9 (amended): an order-creation request containing an item with
    quantity < 1 (zero or negative) fails and no order is created — but not
    with a 4xx InvalidQuantity validation error: the route never checks item
    quantities itself, the built document fails the schema `min: 1`
    validator at save(), and the catch-all answers an opaque 500 server
    error (stated here for requests that pass request-level validation and
    whose items all resolve). -/
theorem c9_invalid_quantity (catalog : List Product) (onr cn : String)
    (ri : List (String × ℚ)) (ap : Option ℚ) (pid : String) (q : ℚ)
    (pItems : List OrderItem)
    (hname : (strTrim cn == "") = false) (hmem : (pid, q) ∈ ri) (hq : q < 1)
    (hproc : processItems catalog ri = .ok pItems) :
    createOrder catalog onr cn ri ap = .err .serverError := by
  have hne : ri.isEmpty = false := by
    cases ri with
    | nil => cases hmem
    | cons a l => rfl
  have hneg : ¬ (builtOrder onr cn pItems ap).validB = true := by
    intro hv
    rw [Order.validB_iff] at hv
    obtain ⟨hitems, -⟩ := hv
    obtain ⟨it, hit, hqit⟩ := processItems_quantity hproc hmem
    have h1 := (hitems it hit).1
    rw [hqit] at h1
    linarith
  rw [createOrder_eq hname hne hproc, if_neg hneg]

/-- Witness for C9: the quantity-0 request against a known product. -/
theorem c9_invalid_quantity_witness :
    createOrder boltCatalog "ORD2025030001" "Cust" [("BOLT-1", 0)] none =
      .err .serverError :=
  c9_invalid_quantity boltCatalog "ORD2025030001" "Cust" [("BOLT-1", 0)] none
    "BOLT-1" 0 [priceItem boltProduct 0] (by decide) (by decide) (by decide) rfl

/-- Counterexample to C9 as stated: the quantity-0 request is answered with
    the opaque 500 server error (mongoose validation failure swallowed by
    the catch-all), not a 4xx-class validation error; no order is created. -/
theorem c9_counterexample :
    createOrder boltCatalog "ORD2025030001" "Cust" [("BOLT-1", 0)] none =
      .err .serverError ∧
    HttpError.serverError ≠ HttpError.badRequest "validation failed" := by
  exact ⟨by decide, by decide⟩

end AmmanSteels
